import Mathlib

/-!
Shallow embedding of src/BluetoothLedStrip/src/BluetoothLedStrip.ts.

JavaScript numbers are modelled as Nat where the source only ever handles
non-negative integers (counters, byte values, lengths), and as ℚ inside
rgb2hsv, whose arithmetic on the inputs of interest is exact in IEEE
doubles and therefore agrees with exact rational arithmetic there.
A Uint8Array construction truncates every element to 8 bits, which we
model by mapping byte (reduction mod 256) over the packet list.
Stateful methods of the Device class become functions
Device → args → Device × List (List Nat): the second component is the
list of byte packets handed to characteristic.writeValueWithoutResponse
during the call (empty when the guard `characteristic == undefined`
makes the method return without writing).
-/

namespace BluetoothLedStrip

/-- Truncation of a non-negative JavaScript number to one byte, as performed
elementwise by a Uint8Array construction. -/
def byte (n : Nat) : Nat := n % 256

/-- Method codes of the MagicStrip (FamilyA) framing, from the TS enum. -/
inductive Method
  | RGB
  | SWITCH
  | MODE
  | BRIGHTNESS
  | SPEED
deriving DecidableEq, Repr

/-- Numeric value of each TS enum member. -/
def Method.toNat : Method → Nat
  | .RGB => 0x03
  | .SWITCH => 0x04
  | .MODE => 0x07
  | .BRIGHTNESS => 0x08
  | .SPEED => 0x09

/-- Device families, from the TS enum DeviceType. -/
inductive DeviceType
  | UNKNOWN
  | MAGIC_STRIP
  | LED_NET_WF
  | KEEP_SMILE
deriving DecidableEq, Repr

def guidServiceMagicStrip : String := "0000fff0-0000-1000-8000-00805f9b34fb"
def guidCharacteristicMagicStrip : String := "0000fff1-0000-1000-8000-00805f9b34fb"

def guidServiceLedNetWf : String := "0000ffff-0000-1000-8000-00805f9b34fb"
def guidCharacteristicLedNetWf : String := "0000ff01-0000-1000-8000-00805f9b34fb"

def guidServiceKeepsmile : String := "0000afd0-0000-1000-8000-00805f9b34fb"
def guidCharacteristicKeepsmile : String := "0000afd1-0000-1000-8000-00805f9b34fb"

/-- The mutable fields of the TS Device class that the protocol layer reads
and writes.  The characteristic field holds the GUID of the bound GATT
characteristic, or none while unbound (undefined in the source). -/
structure Device where
  deviceType : DeviceType := DeviceType.UNKNOWN
  counter : Nat := 0
  lastMode : Nat := 1
  lastBrightness : Nat := 100
  lastSpeed : Nat := 100
  characteristic : Option String := none
deriving DecidableEq, Repr

/-- A fresh Device, all fields at their TS initializers. -/
def initialDevice : Device := {}

/-- Outcome of one GATT lookup step of the transport during connect: whether
each getPrimaryService / getCharacteristic call succeeds or throws. -/
structure Transport where
  svcA : Bool
  chrA : Bool
  svcB : Bool
  chrB : Bool
  svcC : Bool
  chrC : Bool
deriving DecidableEq, Repr

/-- The innermost probe of Device.connect (the KEEP_SMILE block).  The Bool
result is true when an exception escapes to the outer catch, i.e. the error
callback fires instead of the connect callback. -/
def connectC (self : Device) (t : Transport) : Device × Bool :=
  if t.svcC then
    let self := { self with deviceType := DeviceType.KEEP_SMILE }
    if t.chrC then
      ({ self with characteristic := some guidCharacteristicKeepsmile }, false)
    else
      (self, true)
  else
    (self, true)

/-- The middle probe of Device.connect (the LED_NET_WF block); on any failure
control falls to the KEEP_SMILE block with the state mutated so far. -/
def connectB (self : Device) (t : Transport) : Device × Bool :=
  if t.svcB then
    let self := { self with deviceType := DeviceType.LED_NET_WF }
    if t.chrB then
      ({ self with characteristic := some guidCharacteristicLedNetWf }, false)
    else
      connectC self t
  else
    connectC self t

/-- Device.connect service negotiation: probe MAGIC_STRIP, then LED_NET_WF,
then KEEP_SMILE, mirroring the nested try/catch of the source.  Note that
deviceType is assigned after getPrimaryService succeeds and before
getCharacteristic is attempted, exactly as in the source. -/
def connect (self : Device) (t : Transport) : Device × Bool :=
  if t.svcA then
    let self := { self with deviceType := DeviceType.MAGIC_STRIP }
    if t.chrA then
      ({ self with characteristic := some guidCharacteristicMagicStrip }, false)
    else
      connectB self t
  else
    connectB self t

/-- Device.sendMagicStrip: prepend the method byte and write, or return
without writing when no characteristic is bound. -/
def sendMagicStrip (self : Device) (method : Method) (data : List Nat) :
    Device × List (List Nat) :=
  match self.characteristic with
  | none => (self, [])
  | some _ => (self, [(method.toNat :: data).map byte])

/-- Device.sendLedNetWf: pre-increment the counter, frame the packet as
counter-hi, counter-lo, 0x80, 0x00, 0x00, length, length+1, magic bytes,
data bytes, and the constant checksum byte 0. -/
def sendLedNetWf (self : Device) (magic : List Nat) (data : List Nat) :
    Device × List (List Nat) :=
  match self.characteristic with
  | none => (self, [])
  | some _ =>
    let checksum := 0
    let counter := self.counter + 1
    let length := magic.length + data.length
    let packet := ([counter / 256 % 256, counter % 256, 0x80, 0x00, 0x00,
      length, length + 1] ++ magic ++ data ++ [checksum]).map byte
    ({ self with counter := counter }, [packet])

/-- Device.sendKeepsmile: write the data bytes unframed, or return without
writing when no characteristic is bound. -/
def sendKeepsmile (self : Device) (data : List Nat) :
    Device × List (List Nat) :=
  match self.characteristic with
  | none => (self, [])
  | some _ => (self, [data.map byte])

/-- Device.rgb2hsv over exact rationals.  The JavaScript short circuits
c && e and v && e evaluate to the left operand when it is 0, hence the
if-zero branches.  The red/green swap of the source is baked into which
branch of the hue formula each channel selects. -/
def rgb2hsv (red green blue : ℚ) : List ℚ :=
  let red := red / 255
  let green := green / 255
  let blue := blue / 255
  let v := max red (max green blue)
  let c := v - min red (min green blue)
  let h := if c = 0 then c
    else if v = green then (red - blue) / c
    else if v = red then 2 + (blue - green) / c
    else 4 + (green - red) / c
  [60 * (if h < 0 then h + 6 else h) / 2, (if v = 0 then v else c / v) * 100,
    v * 100]

/-- Truncation of a JavaScript number to a Uint8Array element (ToUint8):
truncate toward zero, then reduce mod 256. -/
def toUint8 (q : ℚ) : Nat := ((if q < 0 then -((-q).floor) else q.floor) % 256).toNat

/-- Device.setRGB. -/
def setRGB (self : Device) (red green blue : Nat) : Device × List (List Nat) :=
  if self.deviceType = DeviceType.MAGIC_STRIP then
    sendMagicStrip self Method.RGB [red, green, blue]
  else if self.deviceType = DeviceType.LED_NET_WF then
    let hsv := rgb2hsv (red : ℚ) (green : ℚ) (blue : ℚ)
    sendLedNetWf self [0x0B, 0x3B] (0xA1 :: hsv.map toUint8 ++ List.replicate 7 0)
  else if self.deviceType = DeviceType.KEEP_SMILE then
    sendKeepsmile self [0x5A, 0x00, 0x01, red, green, blue, 0x00,
      self.lastBrightness, 0x00, 0xA5]
  else
    (self, [])

/-- Device.setSwitch. -/
def setSwitch (self : Device) (switchBoolean : Nat) : Device × List (List Nat) :=
  if self.deviceType = DeviceType.MAGIC_STRIP then
    sendMagicStrip self Method.SWITCH [switchBoolean]
  else if self.deviceType = DeviceType.LED_NET_WF then
    sendLedNetWf self [0x0B, 0x3B]
      ((if 0 < switchBoolean then 0x23 else 0x24) :: List.replicate 10 0)
  else if self.deviceType = DeviceType.KEEP_SMILE then
    sendKeepsmile self [0x5B, (if 0 < switchBoolean then 0xF0 else 0x0F), 0x00, 0xB5]
  else
    (self, [])

/-- Device.setMode: the cache field is overwritten before any dispatch. -/
def setMode (self : Device) (mode : Nat) : Device × List (List Nat) :=
  let self := { self with lastMode := mode }
  if self.deviceType = DeviceType.MAGIC_STRIP then
    sendMagicStrip self Method.MODE [mode]
  else if self.deviceType = DeviceType.LED_NET_WF then
    sendLedNetWf self [0x0B, 0x38] [self.lastMode, self.lastSpeed, self.lastBrightness]
  else if self.deviceType = DeviceType.KEEP_SMILE then
    sendKeepsmile self [0x5C, 0x00, self.lastMode + 128, self.lastSpeed,
      self.lastBrightness, 0x00, 0xC5]
  else
    (self, [])

/-- Device.setBrightness: the cache field is overwritten before any dispatch. -/
def setBrightness (self : Device) (brightness : Nat) : Device × List (List Nat) :=
  let self := { self with lastBrightness := brightness }
  if self.deviceType = DeviceType.MAGIC_STRIP then
    sendMagicStrip self Method.BRIGHTNESS [brightness]
  else if self.deviceType = DeviceType.LED_NET_WF then
    sendLedNetWf self [0x0B, 0x38] [self.lastMode, self.lastSpeed, self.lastBrightness]
  else if self.deviceType = DeviceType.KEEP_SMILE then
    sendKeepsmile self [0x5C, 0x00, self.lastMode + 128, self.lastSpeed,
      self.lastBrightness, 0x00, 0xC5]
  else
    (self, [])

/-- Device.setSpeed: the cache field is overwritten before any dispatch. -/
def setSpeed (self : Device) (speed : Nat) : Device × List (List Nat) :=
  let self := { self with lastSpeed := speed }
  if self.deviceType = DeviceType.MAGIC_STRIP then
    sendMagicStrip self Method.SPEED [speed]
  else if self.deviceType = DeviceType.LED_NET_WF then
    sendLedNetWf self [0x0B, 0x38] [self.lastMode, self.lastSpeed, self.lastBrightness]
  else if self.deviceType = DeviceType.KEEP_SMILE then
    sendKeepsmile self [0x5C, 0x00, self.lastMode + 128, self.lastSpeed,
      self.lastBrightness, 0x00, 0xC5]
  else
    (self, [])

/-- A Device with the FamilyB (LED_NET_WF) session established, used as a
concrete session for witnesses and counterexamples. -/
def devB : Device :=
  { deviceType := DeviceType.LED_NET_WF
    characteristic := some guidCharacteristicLedNetWf }

/-- A Device with the FamilyC (KEEP_SMILE) session established. -/
def devC : Device :=
  { deviceType := DeviceType.KEEP_SMILE
    characteristic := some guidCharacteristicKeepsmile }

/-- Iterated FamilyB sends on one session with a fixed command. -/
def sendsB (s : Device) (magic data : List Nat) : Nat → Device
  | 0 => s
  | n + 1 => (sendLedNetWf (sendsB s magic data n) magic data).1

/-- The two-byte big-endian counter field of the packet emitted by send
number k (0-indexed) in a run of consecutive FamilyB sends. -/
def counterFieldB (s : Device) (magic data : List Nat) (k : Nat) : Nat :=
  (((sendLedNetWf (sendsB s magic data k) magic data).2.headD []).getD 0 0) * 256 +
    ((sendLedNetWf (sendsB s magic data k) magic data).2.headD []).getD 1 0

lemma byte_eq_of_lt {n : Nat} (h : n < 256) : byte n = n := Nat.mod_eq_of_lt h

lemma toUint8_lt (q : ℚ) : toUint8 q < 256 := by
  have h1 : ((if q < 0 then -((-q).floor) else q.floor) % 256) < 256 :=
    Int.emod_lt_of_pos _ (by norm_num)
  have h2 : 0 ≤ ((if q < 0 then -((-q).floor) else q.floor) % 256) :=
    Int.emod_nonneg _ (by norm_num)
  unfold toUint8
  omega

lemma byte_toUint8 (q : ℚ) : byte (toUint8 q) = toUint8 q :=
  byte_eq_of_lt (toUint8_lt q)

lemma getLastD_map_concat (l : List Nat) : ((l ++ [0]).map byte).getLastD 0 = 0 := by
  rw [List.map_append]
  simp [byte]

lemma sendLedNetWf_state (s : Device) (g : String) (magic data : List Nat)
    (hc : s.characteristic = some g) :
    (sendLedNetWf s magic data).1 = { s with counter := s.counter + 1 } := by
  simp [sendLedNetWf, hc]

lemma sendsB_state (s : Device) (g : String) (magic data : List Nat)
    (hc : s.characteristic = some g) (n : Nat) :
    sendsB s magic data n = { s with counter := s.counter + n } := by
  induction n with
  | zero => rfl
  | succ n ih =>
    rw [show sendsB s magic data (n + 1) =
        (sendLedNetWf (sendsB s magic data n) magic data).1 from rfl, ih]
    simp [sendLedNetWf, hc, Nat.add_assoc]

lemma counterFieldB_eq (s : Device) (g : String) (magic data : List Nat)
    (hc : s.characteristic = some g) (k : Nat) :
    counterFieldB s magic data k = (s.counter + k + 1) % 65536 := by
  rw [counterFieldB, sendsB_state s g magic data hc]
  simp [sendLedNetWf, hc, byte, List.getD_cons_zero, List.getD_cons_succ]
  omega

end BluetoothLedStrip

namespace BluetoothLedStrip

/-- Claim C1, counterexample: on a connected FamilyB session, setSwitch(1)
emits a packet whose last byte is 0 while the sum of its bytes from index 9
through the second-to-last byte is 35 mod 256, so the trailing byte does not
equal the claimed checksum. -/
theorem familyB_checksum_counterexample :
    (setSwitch devB 1).2 =
      [[0, 1, 0x80, 0, 0, 13, 14, 0x0B, 0x3B, 0x23,
        0, 0, 0, 0, 0, 0, 0, 0, 0, 0, 0]] ∧
    ((setSwitch devB 1).2.headD []).getLastD 0 = 0 ∧
    ((((setSwitch devB 1).2.headD []).drop 9).dropLast).sum % 256 = 35 := by
  decide

/-- Claim C1, amended: the last byte of every packet produced by sendLedNetWf
on a connected session is the constant 0 (the reserved checksum byte is never
computed by the code). -/
theorem familyB_trailing_byte_zero (s : Device) (g : String)
    (magic data : List Nat) (hc : s.characteristic = some g) :
    ∀ p ∈ (sendLedNetWf s magic data).2, p.getLastD 0 = 0 := by
  intro p hp
  simp only [sendLedNetWf, hc, List.mem_singleton] at hp
  subst hp
  exact getLastD_map_concat _

/-- Claim C1, witness for the amended theorem at a concrete session and
packet: the one packet of that send ends in the byte 0. -/
theorem familyB_trailing_byte_zero_witness :
    ((sendLedNetWf devB [0x0B, 0x3B] [0x23]).2.headD []).getLastD 0 = 0 :=
  familyB_trailing_byte_zero devB guidCharacteristicLedNetWf [0x0B, 0x3B] [0x23]
    rfl ((sendLedNetWf devB [0x0B, 0x3B] [0x23]).2.headD []) (by decide)

/-- Claim C2, counterexample: with a transport where FamilyA's primary
service resolves but its characteristic lookup fails, and FamilyB's and
FamilyC's service lookups fail, all three candidates fail and the error is
surfaced, yet the session's family is MAGIC_STRIP rather than UNKNOWN:
partial state is retained. -/
theorem negotiation_exhaustion_counterexample :
    (connect initialDevice ⟨true, false, false, false, false, false⟩).2 = true ∧
    (connect initialDevice ⟨true, false, false, false, false, false⟩).1.characteristic
      = none ∧
    (connect initialDevice ⟨true, false, false, false, false, false⟩).1.deviceType
      = DeviceType.MAGIC_STRIP := by
  decide

/-- Claim C2, amended: when the primary-service lookup fails for all three
candidates, connect surfaces the failure through the error callback and the
session is returned entirely unchanged: the family stays whatever it was
(Unknown for a fresh session) and no characteristic is bound. -/
theorem connect_all_service_lookups_fail (s : Device) (t : Transport)
    (ha : t.svcA = false) (hb : t.svcB = false) (hcc : t.svcC = false) :
    connect s t = (s, true) := by
  simp [connect, connectB, connectC, ha, hb, hcc]

/-- Claim C2, witness: the amended theorem applied to a fresh session. -/
theorem connect_all_service_lookups_fail_witness :
    connect initialDevice ⟨false, false, false, false, false, false⟩ =
      (initialDevice, true) :=
  connect_all_service_lookups_fail initialDevice
    ⟨false, false, false, false, false, false⟩ rfl rfl rfl

/-- Claim C3, counterexample: rgb2hsv(255,0,0) yields hue 60, not hue 0 as
the claim states: the built-in red/green swap sends the red input to the
halved hue of green. -/
theorem rgb2hsv_red_counterexample :
    (rgb2hsv 255 0 0).headD 0 = 60 ∧ (rgb2hsv 255 0 0).headD 0 ≠ 0 := by
  norm_num [rgb2hsv, max_def, min_def]

/-- Claim C3, amended: rgb2hsv(0,0,0) = (0,0,0); because of the built-in
red/green channel swap, rgb2hsv(255,0,0) yields hue 60, saturation 100,
value 100, while rgb2hsv(0,255,0) yields hue 0, saturation 100, value 100;
hue is halved to fit [0,180). -/
theorem rgb2hsv_test_vectors :
    rgb2hsv 0 0 0 = [0, 0, 0] ∧
    rgb2hsv 255 0 0 = [60, 100, 100] ∧
    rgb2hsv 0 255 0 = [0, 100, 100] := by
  refine ⟨?_, ?_, ?_⟩ <;> norm_num [rgb2hsv, max_def, min_def]

end BluetoothLedStrip

namespace BluetoothLedStrip

/-- Claim C4: on a FamilyB or FamilyC session, setBrightness(v) followed by
setSpeed(w) produces in the second packet the combined payload with mode
equal to the previously cached lastMode (unchanged), speed = w and
brightness = v: each setter writes its value into the session cache before
encoding, and untouched fields keep their cached values. -/
theorem combined_payload_stale_retention (s : Device) (g : String) (v w : Nat)
    (hc : s.characteristic = some g) (hm : s.lastMode < 128)
    (hv : v < 256) (hw : w < 256) :
    (s.deviceType = DeviceType.LED_NET_WF →
      (setSpeed (setBrightness s v).1 w).2 =
        [[(s.counter + 2) / 256 % 256, (s.counter + 2) % 256, 0x80, 0, 0, 5, 6,
          0x0B, 0x38, s.lastMode, w, v, 0]]) ∧
    (s.deviceType = DeviceType.KEEP_SMILE →
      (setSpeed (setBrightness s v).1 w).2 =
        [[0x5C, 0, s.lastMode + 128, w, v, 0, 0xC5]]) := by
  constructor
  · intro hd
    simp [setBrightness, setSpeed, sendLedNetWf, hc, hd, byte]
    omega
  · intro hd
    simp [setBrightness, setSpeed, sendKeepsmile, hc, hd, byte]
    omega

/-- Claim C4, witness: on a fresh FamilyB session (lastMode 1),
setBrightness(55) then setSpeed(66) emits the combined payload 1, 66, 55. -/
theorem combined_payload_stale_retention_witness :
    (setSpeed (setBrightness devB 55).1 66).2 =
      [[0, 2, 0x80, 0, 0, 5, 6, 0x0B, 0x38, 1, 66, 55, 0]] :=
  (combined_payload_stale_retention devB guidCharacteristicLedNetWf 55 66 rfl
    (by decide) (by decide) (by decide)).1 rfl

/-- Claim C5: the session counter increments exactly once per FamilyB send
and the freshly incremented value is the one framed into the packet
(pre-increment); FamilyA and FamilyC sends leave the session untouched;
across consecutive FamilyB sends the two-byte big-endian counter field
advances by one mod 65536 and never repeats within a window shorter than
one wrap cycle of 65536 sends. -/
theorem familyB_counter_invariant (s : Device) (g : String)
    (magic data : List Nat) (hc : s.characteristic = some g) :
    ((sendLedNetWf s magic data).1 = { s with counter := s.counter + 1 }) ∧
    (∀ p ∈ (sendLedNetWf s magic data).2,
      p.getD 0 0 * 256 + p.getD 1 0 = (s.counter + 1) % 65536) ∧
    (∀ method dd, (sendMagicStrip s method dd).1 = s) ∧
    (∀ dd, (sendKeepsmile s dd).1 = s) ∧
    (∀ k, counterFieldB s magic data (k + 1) =
      (counterFieldB s magic data k + 1) % 65536) ∧
    (∀ i j, i < j → j - i < 65536 →
      counterFieldB s magic data i ≠ counterFieldB s magic data j) := by
  refine ⟨sendLedNetWf_state s g magic data hc, ?_, ?_, ?_, ?_, ?_⟩
  · intro p hp
    simp only [sendLedNetWf, hc, List.mem_singleton] at hp
    subst hp
    simp [byte, List.getD_cons_zero, List.getD_cons_succ]
    omega
  · intro method dd
    cases h : s.characteristic <;> simp [sendMagicStrip, h]
  · intro dd
    cases h : s.characteristic <;> simp [sendKeepsmile, h]
  · intro k
    rw [counterFieldB_eq s g magic data hc, counterFieldB_eq s g magic data hc]
    omega
  · intro i j hij hw
    rw [counterFieldB_eq s g magic data hc, counterFieldB_eq s g magic data hc]
    omega

/-- Claim C5, witness: the first two FamilyB sends on a fresh session carry
distinct counter fields. -/
theorem familyB_counter_invariant_witness :
    counterFieldB devB [0x0B, 0x38] [1, 100, 100] 0 ≠
      counterFieldB devB [0x0B, 0x38] [1, 100, 100] 1 :=
  (familyB_counter_invariant devB guidCharacteristicLedNetWf [0x0B, 0x38]
    [1, 100, 100] rfl).2.2.2.2.2 0 1 (by decide) (by decide)

/-- Claim C6: negotiation probes FamilyA, FamilyB, FamilyC in that fixed
order; the first candidate whose primary-service and characteristic lookups
both succeed determines the assigned family and binds that family's
characteristic, and later candidates are skipped — in particular when both
FamilyA and FamilyB resolve, FamilyA is assigned. -/
theorem negotiation_priority_order (s : Device) (t : Transport) :
    (t.svcA = true → t.chrA = true →
      connect s t = ({ s with
        deviceType := DeviceType.MAGIC_STRIP
        characteristic := some guidCharacteristicMagicStrip }, false)) ∧
    (¬(t.svcA = true ∧ t.chrA = true) → t.svcB = true → t.chrB = true →
      connect s t = ({ s with
        deviceType := DeviceType.LED_NET_WF
        characteristic := some guidCharacteristicLedNetWf }, false)) ∧
    (¬(t.svcA = true ∧ t.chrA = true) → ¬(t.svcB = true ∧ t.chrB = true) →
      t.svcC = true → t.chrC = true →
      connect s t = ({ s with
        deviceType := DeviceType.KEEP_SMILE
        characteristic := some guidCharacteristicKeepsmile }, false)) := by
  obtain ⟨a, b, c, d, e, f⟩ := t
  cases a <;> cases b <;> cases c <;> cases d <;> cases e <;> cases f <;>
    simp [connect, connectB, connectC]

/-- Claim C6, witness: with FamilyA and FamilyB both resolving, the assigned
family is MAGIC_STRIP and its characteristic is the one bound. -/
theorem negotiation_priority_order_witness :
    connect initialDevice ⟨true, true, true, true, false, false⟩ =
      ({ initialDevice with
          deviceType := DeviceType.MAGIC_STRIP
          characteristic := some guidCharacteristicMagicStrip }, false) :=
  (negotiation_priority_order initialDevice
    ⟨true, true, true, true, false, false⟩).1 rfl rfl

/-- Claim C9: every command issued while the family is Unknown or no
characteristic is bound performs no transport write: the NotConnected
condition is a silent no-op. -/
theorem commands_noop_before_connect (s : Device)
    (h : s.deviceType = DeviceType.UNKNOWN ∨ s.characteristic = none)
    (r gr b sw m br sp : Nat) :
    (setRGB s r gr b).2 = [] ∧ (setSwitch s sw).2 = [] ∧
    (setMode s m).2 = [] ∧ (setBrightness s br).2 = [] ∧
    (setSpeed s sp).2 = [] := by
  rcases h with h | h
  · simp [setRGB, setSwitch, setMode, setBrightness, setSpeed, h]
  · rcases hd : s.deviceType <;>
      simp [setRGB, setSwitch, setMode, setBrightness, setSpeed,
        sendMagicStrip, sendLedNetWf, sendKeepsmile, h, hd]

/-- Claim C9, witness: no command writes on a fresh, unconnected session. -/
theorem commands_noop_before_connect_witness :
    (setRGB initialDevice 255 0 0).2 = [] ∧
    (setSwitch initialDevice 1).2 = [] ∧ (setMode initialDevice 5).2 = [] ∧
    (setBrightness initialDevice 50).2 = [] ∧
    (setSpeed initialDevice 60).2 = [] :=
  commands_noop_before_connect initialDevice (Or.inl rfl) 255 0 0 1 5 50 60

end BluetoothLedStrip

namespace BluetoothLedStrip

lemma rgb2hsv_red_cast :
    rgb2hsv ((255 : Nat) : ℚ) ((0 : Nat) : ℚ) ((0 : Nat) : ℚ) = [60, 100, 100] := by
  norm_num [rgb2hsv, max_def, min_def]

/-- Claim C7: every FamilyB packet is the big-endian counter, the marker
0x80 0x00 0x00, the selector-plus-payload length, that length plus one, the
two-byte command-group selector, the command payload (color: 0xA1 then the
HSV triple as bytes then 7 zeros; switch: 0x23 or 0x24 then 10 zeros;
mode/brightness/speed: the combined payload lastMode, lastSpeed,
lastBrightness), and exactly one trailing checksum byte. -/
theorem familyB_packet_framing (s : Device) (g : String)
    (r gr b m br sp : Nat) (q0 q1 q2 : ℚ)
    (hd : s.deviceType = DeviceType.LED_NET_WF) (hc : s.characteristic = some g)
    (hq : rgb2hsv (r : ℚ) (gr : ℚ) (b : ℚ) = [q0, q1, q2])
    (hm : m < 256) (hbr : br < 256) (hsp : sp < 256)
    (hm0 : s.lastMode < 256) (hsp0 : s.lastSpeed < 256)
    (hbr0 : s.lastBrightness < 256) :
    ((setRGB s r gr b).2 =
      [[(s.counter + 1) / 256 % 256, (s.counter + 1) % 256, 0x80, 0, 0, 13, 14,
        0x0B, 0x3B, 0xA1, toUint8 q0, toUint8 q1, toUint8 q2,
        0, 0, 0, 0, 0, 0, 0, 0]]) ∧
    ((setSwitch s 1).2 =
      [[(s.counter + 1) / 256 % 256, (s.counter + 1) % 256, 0x80, 0, 0, 13, 14,
        0x0B, 0x3B, 0x23, 0, 0, 0, 0, 0, 0, 0, 0, 0, 0, 0]]) ∧
    ((setSwitch s 0).2 =
      [[(s.counter + 1) / 256 % 256, (s.counter + 1) % 256, 0x80, 0, 0, 13, 14,
        0x0B, 0x3B, 0x24, 0, 0, 0, 0, 0, 0, 0, 0, 0, 0, 0]]) ∧
    ((setMode s m).2 =
      [[(s.counter + 1) / 256 % 256, (s.counter + 1) % 256, 0x80, 0, 0, 5, 6,
        0x0B, 0x38, m, s.lastSpeed, s.lastBrightness, 0]]) ∧
    ((setBrightness s br).2 =
      [[(s.counter + 1) / 256 % 256, (s.counter + 1) % 256, 0x80, 0, 0, 5, 6,
        0x0B, 0x38, s.lastMode, s.lastSpeed, br, 0]]) ∧
    ((setSpeed s sp).2 =
      [[(s.counter + 1) / 256 % 256, (s.counter + 1) % 256, 0x80, 0, 0, 5, 6,
        0x0B, 0x38, s.lastMode, sp, s.lastBrightness, 0]]) := by
  have t0 := toUint8_lt q0
  have t1 := toUint8_lt q1
  have t2 := toUint8_lt q2
  refine ⟨?_, ?_, ?_, ?_, ?_, ?_⟩ <;>
    simp [setRGB, setSwitch, setMode, setBrightness, setSpeed, sendLedNetWf,
      hc, hd, hq, byte, List.replicate] <;>
    omega

/-- Claim C7, witness: the color packet for pure red on a fresh FamilyB
session, with the HSV triple of the swapped conversion. -/
theorem familyB_packet_framing_witness :
    (setRGB devB 255 0 0).2 =
      [[0, 1, 0x80, 0, 0, 13, 14, 0x0B, 0x3B, 0xA1,
        toUint8 60, toUint8 100, toUint8 100, 0, 0, 0, 0, 0, 0, 0, 0]] :=
  (familyB_packet_framing devB guidCharacteristicLedNetWf 255 0 0 5 50 60
    60 100 100 rfl rfl rgb2hsv_red_cast (by decide) (by decide) (by decide)
    (by decide) (by decide) (by decide)).1

/-- Claim C8: every FamilyC packet matches its bespoke fixed pattern exactly,
with no counter and no checksum: color, switch on/off, and the combined
mode/brightness/speed pattern; the session state apart from the written
cache field is untouched (in particular the counter never changes). -/
theorem familyC_packet_patterns (s : Device) (g : String)
    (r gr b m br sp : Nat)
    (hd : s.deviceType = DeviceType.KEEP_SMILE) (hc : s.characteristic = some g)
    (hr : r < 256) (hg : gr < 256) (hb : b < 256) (hm : m < 128)
    (hbr : br < 256) (hsp : sp < 256) (hm0 : s.lastMode < 128)
    (hsp0 : s.lastSpeed < 256) (hbr0 : s.lastBrightness < 256) :
    ((setRGB s r gr b).2 =
      [[0x5A, 0, 1, r, gr, b, 0, s.lastBrightness, 0, 0xA5]]) ∧
    ((setRGB s r gr b).1 = s) ∧
    ((setSwitch s 1).2 = [[0x5B, 0xF0, 0, 0xB5]]) ∧
    ((setSwitch s 0).2 = [[0x5B, 0x0F, 0, 0xB5]]) ∧
    ((setSwitch s 1).1 = s) ∧
    ((setMode s m).2 =
      [[0x5C, 0, m + 128, s.lastSpeed, s.lastBrightness, 0, 0xC5]]) ∧
    ((setBrightness s br).2 =
      [[0x5C, 0, s.lastMode + 128, s.lastSpeed, br, 0, 0xC5]]) ∧
    ((setSpeed s sp).2 =
      [[0x5C, 0, s.lastMode + 128, sp, s.lastBrightness, 0, 0xC5]]) ∧
    ((setMode s m).1.counter = s.counter) := by
  refine ⟨?_, ?_, ?_, ?_, ?_, ?_, ?_, ?_, ?_⟩ <;>
    simp [setRGB, setSwitch, setMode, setBrightness, setSpeed, sendKeepsmile,
      hc, hd, byte] <;>
    omega

/-- Claim C8, witness: the color packet for (10, 20, 30) on a fresh FamilyC
session with cached brightness 100. -/
theorem familyC_packet_patterns_witness :
    (setRGB devC 10 20 30).2 = [[0x5A, 0, 1, 10, 20, 30, 0, 100, 0, 0xA5]] :=
  (familyC_packet_patterns devC guidCharacteristicKeepsmile 10 20 30 5 50 60
    rfl rfl (by decide) (by decide) (by decide) (by decide) (by decide)
    (by decide) (by decide) (by decide) (by decide)).1

/-- Claim C10: setMode, setBrightness and setSpeed overwrite their cached
session field before family dispatch even when no session is established,
leaving every other field unchanged and writing nothing; connect never
touches the cached fields or the counter, so values set before a successful
connection survive negotiation and appear in the first combined packet sent
afterwards. -/
theorem cache_write_before_dispatch (s : Device) (m br sp : Nat)
    (h : s.deviceType = DeviceType.UNKNOWN ∨ s.characteristic = none) :
    ((setMode s m).1 = { s with lastMode := m } ∧ (setMode s m).2 = []) ∧
    ((setBrightness s br).1 = { s with lastBrightness := br } ∧
      (setBrightness s br).2 = []) ∧
    ((setSpeed s sp).1 = { s with lastSpeed := sp } ∧ (setSpeed s sp).2 = []) ∧
    (∀ t, (connect s t).1.counter = s.counter ∧
      (connect s t).1.lastMode = s.lastMode ∧
      (connect s t).1.lastBrightness = s.lastBrightness ∧
      (connect s t).1.lastSpeed = s.lastSpeed) ∧
    (∀ t w, t.svcA = false → t.svcB = true → t.chrB = true →
      m < 256 → w < 256 → s.lastBrightness < 256 →
      (setSpeed (connect (setMode s m).1 t).1 w).2 =
        [[(s.counter + 1) / 256 % 256, (s.counter + 1) % 256, 0x80, 0, 0, 5, 6,
          0x0B, 0x38, m, w, s.lastBrightness, 0]]) := by
  have hset : ∀ k : Nat, (setMode s k).1 = { s with lastMode := k } ∧
      (setMode s k).2 = [] := by
    intro k
    rcases h with h | h
    · simp [setMode, h]
    · rcases hd : s.deviceType <;>
        simp [setMode, sendMagicStrip, sendLedNetWf, sendKeepsmile, h, hd]
  refine ⟨hset m, ?_, ?_, ?_, ?_⟩
  · rcases h with h | h
    · simp [setBrightness, h]
    · rcases hd : s.deviceType <;>
        simp [setBrightness, sendMagicStrip, sendLedNetWf, sendKeepsmile, h, hd]
  · rcases h with h | h
    · simp [setSpeed, h]
    · rcases hd : s.deviceType <;>
        simp [setSpeed, sendMagicStrip, sendLedNetWf, sendKeepsmile, h, hd]
  · intro t
    obtain ⟨a, b, c, d, e, f⟩ := t
    cases a <;> cases b <;> cases c <;> cases d <;> cases e <;> cases f <;>
      simp [connect, connectB, connectC]
  · intro t w ha hb2 hc2 hm2 hw2 hbr2
    rw [(hset m).1]
    simp [connect, connectB, ha, hb2, hc2, setSpeed, sendLedNetWf, byte]
    omega

/-- Claim C10, witness: mode 7 set before connecting survives negotiation
and appears in the first combined packet after the FamilyB session binds. -/
theorem cache_write_before_dispatch_witness :
    (setSpeed (connect (setMode initialDevice 7).1
        ⟨false, false, true, true, false, false⟩).1 9).2 =
      [[0, 1, 0x80, 0, 0, 5, 6, 0x0B, 0x38, 7, 9, 100, 0]] :=
  (cache_write_before_dispatch initialDevice 7 0 0 (Or.inl rfl)).2.2.2.2
    ⟨false, false, true, true, false, false⟩ 9 rfl rfl rfl (by decide)
    (by decide) (by decide)

end BluetoothLedStrip
